import Mathlib

/-!
Verification of the `Error` model from `src/utils/models/generic.py` of
NIKL-Core.

The source declares a validated record type:

  class Error(BaseModel):
      message: str = Field(..., title="Message", description="Error message")
      class Config:
          schema_extra = {"example": {"message": "Error message"}}

The field declaration (name `message`, type string, required because the
default is `...`, title "Message", description "Error message") and the
schema example `{"message": "Error message"}` are embedded directly from
that source. The validation machinery itself (`BaseModel` and `Field`,
imported through `src.utils.base.libraries`, a module of the repository
that is not part of this fragment) is modelled from the spec: construction
takes a keyword mapping, checks presence and type of the single declared
field, and either returns an immutable instance or a structured
`ValidationError` naming the offending field and whether it was missing or
of the wrong type (spec sections 4.1, 7).
-/

namespace Nikl

/-- Dynamic values that a caller can pass as a keyword argument.
Strings are the only values accepted for `message`; the other
constructors represent the non-string inputs the spec's error-handling
scenarios mention (integers such as 123, `None`, booleans). -/
inductive Value where
  | str (s : String)
  | int (n : Int)
  | bool (b : Bool)
  | none
deriving DecidableEq, Repr

/-- Whether a dynamic value is a string. -/
def Value.isStr : Value → Bool
  | .str _ => true
  | _ => false

/-- The validated record type of `generic.py`: one field, `message`,
of type string.  A value of this type only exists after successful
validation. -/
structure Error where
  message : String
deriving DecidableEq, Repr

/-- Why validation of a field failed: the field was absent from the
input, or it was present with a non-string value (spec section 7:
"missing vs. type mismatch"). -/
inductive ErrKind where
  | missing
  | wrongType
deriving DecidableEq, Repr

/-- Modelled from the spec: the structured validation failure raised by
the missing base library.  It identifies which field failed (`loc`) and
the nature of the violation (`kind`). -/
structure ValidationError where
  loc : String
  kind : ErrKind
deriving DecidableEq, Repr

/-- Modelled from the spec: `construct(message=...)` of the missing base
library (`BaseModel.__init__`).  The input is the keyword mapping given
by the caller.  The single declared field `message` is looked up; if it
is absent construction fails with a `missing` error on `message`, if it
is present but not a string construction fails with a `wrongType` error
on `message`, and otherwise the immutable instance wrapping the string
is returned.  Keys other than declared fields are not consulted. -/
def construct (input : List (String × Value)) : Except ValidationError Error :=
  match input.lookup "message" with
  | Option.none => .error ⟨"message", .missing⟩
  | Option.some (.str s) => .ok ⟨s⟩
  | Option.some _ => .error ⟨"message", .wrongType⟩

/-- Schema metadata of one field, as `describe_schema` reports it. -/
structure FieldSchema where
  name : String
  type : String
  required : Bool
  title : String
  description : String
deriving DecidableEq, Repr

/-- The declared metadata of the `message` field, from
`Field(..., title="Message", description="Error message")` with
annotation `str`: required (the `...` default means no default value). -/
def message_field : FieldSchema :=
  { name := "message"
    type := "string"
    required := true
    title := "Message"
    description := "Error message" }

/-- The `schema_extra` example payload of `Error.Config`:
`{"message": "Error message"}`. -/
def schema_extra_example : List (String × Value) :=
  [("message", Value.str "Error message")]

/-- Modelled from the spec: the machine-readable schema description
returned by `describe_schema()` — the list of field descriptions plus
the example payload. -/
structure SchemaDescription where
  fields : List FieldSchema
  examplePayload : List (String × Value)
deriving DecidableEq, Repr

/-- Modelled from the spec: `describe_schema()` of the missing base
library, assembled from the field declarations and the `schema_extra`
of the source. -/
def describe_schema : SchemaDescription :=
  { fields := [message_field]
    examplePayload := schema_extra_example }

/-- The field mapping of an instance (the library's `.dict()` view):
each declared field name paired with its value. -/
def toDict (e : Error) : List (String × Value) :=
  [("message", Value.str e.message)]

/-- Modelled from the spec: the public interface of an already
constructed instance (spec sections 4.1 and 6) — reading `message`,
exporting the field mapping, and describing the schema.  No operation
reassigning a field is part of the interface. -/
inductive PublicOp where
  | getMessage
  | asDict
  | describeSchemaOp
deriving DecidableEq, Repr

/-- What a public operation returns to the caller. -/
inductive Observed where
  | obsStr (s : String)
  | obsMapping (m : List (String × Value))
  | obsSchema (d : SchemaDescription)
deriving DecidableEq, Repr

/-- Run one public operation on an instance: the observation it yields,
and the instance as the operation leaves it. -/
def runOp : PublicOp → Error → Observed × Error
  | .getMessage, e => (.obsStr e.message, e)
  | .asDict, e => (.obsMapping (toDict e), e)
  | .describeSchemaOp, e => (.obsSchema describe_schema, e)

/-- Run a sequence of public operations, threading the instance. -/
def runOps : List PublicOp → Error → Error
  | [], e => e
  | op :: ops, e => runOps ops (runOp op e).2

end Nikl

namespace Nikl

/-- Claim C1: schema self-consistency round-trip — the example payload
returned by `describe_schema` (`{"message": "Error message"}`), when
passed to `construct`, is accepted without any validation error. -/
theorem schema_example_roundtrip :
    construct describe_schema.examplePayload = .ok ⟨"Error message"⟩ := by
  rfl

/-- Claim C2: construction round-trip — for every string `s` (including
the empty string), `construct(message=s)` succeeds and the resulting
instance's `message` equals `s` exactly. -/
theorem construct_string_roundtrip (s : String) :
    construct [("message", Value.str s)] = .ok ⟨s⟩ := by
  rfl

/-- Claim C3: immutability — for every successfully constructed
instance, no sequence of public-interface operations changes `message`;
it stays present, a string (by the type of `Error.message`), and equal
to the constructed value for the instance's whole lifetime. -/
theorem message_immutable (input : List (String × Value)) (e : Error)
    (ops : List PublicOp) (h : construct input = .ok e) :
    (runOps ops e).message = e.message := by
  clear h
  induction ops generalizing e with
  | nil => rfl
  | cons op ops ih =>
    cases op <;> simpa [runOps, runOp] using ih e

/-- Witness for C3 at a concrete construction and operation trace. -/
theorem message_immutable_witness :
    (runOps [PublicOp.getMessage, PublicOp.asDict] ⟨"boom"⟩).message = "boom" :=
  message_immutable [("message", Value.str "boom")] ⟨"boom"⟩
    [PublicOp.getMessage, PublicOp.asDict] rfl

/-- Claim C4: rejection on wrong type — whenever the input mapping
binds `message` to a non-string value, construction fails with a
`ValidationError` naming `message` and the wrong-type kind, and no
instance is produced. -/
theorem construct_rejects_nonstring (input : List (String × Value))
    (v : Value) (hv : input.lookup "message" = Option.some v)
    (hs : v.isStr = false) :
    construct input = .error ⟨"message", ErrKind.wrongType⟩ := by
  cases v with
  | str s => simp [Value.isStr] at hs
  | int n => simp [construct, hv]
  | bool b => simp [construct, hv]
  | none => simp [construct, hv]

/-- Witness for C4 at the integer input 123. -/
theorem construct_rejects_nonstring_witness :
    construct [("message", Value.int 123)] =
      .error ⟨"message", ErrKind.wrongType⟩ :=
  construct_rejects_nonstring [("message", Value.int 123)]
    (Value.int 123) rfl rfl

/-- Claim C5: rejection on missing field — when the input mapping has
no `message` key, construction fails with a `ValidationError` that
names the field `message` and the missing kind (not wrong type). -/
theorem construct_rejects_missing (input : List (String × Value))
    (h : input.lookup "message" = Option.none) :
    construct input = .error ⟨"message", ErrKind.missing⟩ := by
  simp [construct, h]

/-- Witness for C5 at the empty keyword mapping. -/
theorem construct_rejects_missing_witness :
    construct [] = .error ⟨"message", ErrKind.missing⟩ :=
  construct_rejects_missing [] rfl

/-- Claim C6: rejection of `None` — `construct(message=None)` fails
with a `ValidationError` citing `message` with an invalid-type kind,
and no instance exists after the failure (all-or-nothing). -/
theorem construct_rejects_none :
    construct [("message", Value.none)] =
        .error ⟨"message", ErrKind.wrongType⟩ ∧
      ∀ e : Error, construct [("message", Value.none)] ≠ .ok e := by
  refine ⟨rfl, ?_⟩
  intro e h
  simp [construct] at h

/-- Claim C7: schema-description content — `describe_schema` reports
field `message` of type string, required, titled "Message", described
"Error message", and the example payload `{"message": "Error message"}`. -/
theorem describe_schema_content :
    describe_schema.fields =
        [{ name := "message", type := "string", required := true,
           title := "Message", description := "Error message" }] ∧
      describe_schema.examplePayload =
        [("message", Value.str "Error message")] := by
  exact ⟨rfl, rfl⟩

/-- Claim C8: extra arguments are ignored — for every string `s` and
every extra keyword argument `k ≠ "message"` with any value `v`,
construction with `message=s` plus the extra argument succeeds with an
instance carrying only `message = s`, whichever side the extra argument
appears on. -/
theorem construct_ignores_extra (s : String) (k : String) (v : Value)
    (hk : k ≠ "message") :
    construct [("message", Value.str s), (k, v)] = .ok ⟨s⟩ ∧
      construct [(k, v), ("message", Value.str s)] = .ok ⟨s⟩ := by
  refine ⟨rfl, ?_⟩
  have h2 : ("message" == k) = false := beq_eq_false_iff_ne.mpr (Ne.symm hk)
  simp [construct, List.lookup, h2]

/-- Witness for C8 at a concrete extra keyword argument. -/
theorem construct_ignores_extra_witness :
    construct [("message", Value.str "hi"), ("extra", Value.int 7)] =
        .ok ⟨"hi"⟩ ∧
      construct [("extra", Value.int 7), ("message", Value.str "hi")] =
        .ok ⟨"hi"⟩ :=
  construct_ignores_extra "hi" "extra" (Value.int 7) (by decide)

/-- Claim C9: equality is determined by field values — two constructed
instances are equal exactly when their `message` fields are equal;
instances carry no identity beyond their fields. -/
theorem error_eq_iff_message_eq (a b : Error) :
    a = b ↔ a.message = b.message := by
  constructor
  · intro h; rw [h]
  · intro h; cases a; cases b; simpa using h

/-- Claim C10: serialization round-trip — constructing from the field
mapping `{"message": e.message}` of any instance `e` succeeds and
yields an instance equal to `e`. -/
theorem dict_roundtrip (e : Error) :
    construct (toDict e) = .ok e := by
  cases e
  rfl

end Nikl
